import Mathlib

/-!
Verification of the Kamui CLI credential store, OAuth flow engine and
credential lifecycle manager (packages `config`, `auth`, `service` of the
repository), shallowly embedded in Lean 4.

Modelling conventions:
* Wall-clock time is a natural number of seconds; the Go zero `time.Time`
  is modelled as `0` (and `time.Now()` is never the zero time).
* The on-disk config file is `Store := Option Config`: `none` is a missing
  file, `some c` is a file holding record `c`.  File-system failures other
  than "file does not exist" are outside the model.
* Network calls are parameters: an HTTP response is abstracted to the data
  the code inspects (status code and, for error analysis, the parsed
  `message` field of the body), and success bodies are passed as already
  decoded values.
-/

/-- `config.DefaultAPIURL`: the default Kamui API endpoint. -/
def DefaultAPIURL : String := "https://api.kamui-platform.com"

/-- `config.Config`: the CLI configuration record stored on disk.
`expiresAt = 0` encodes the Go zero `time.Time` (field absent). -/
structure Config where
  accessToken : String := ""
  refreshToken : String := ""
  expiresAt : Nat := 0
  apiURL : String := ""
  clientID : String := ""
  clientSecret : String := ""
deriving Repr, DecidableEq

/-- The contents of the config file: `none` when the file does not exist. -/
abbrev Store := Option Config

/-- `config.Manager.Load`: reads the configuration; a missing file yields an
empty record, and an empty `api_url` is replaced by the default. -/
def Manager.Load (store : Store) : Config :=
  match store with
  | none => { apiURL := DefaultAPIURL }
  | some c => if c.apiURL = "" then { c with apiURL := DefaultAPIURL } else c

/-- `config.Manager.Save`: writes the given record to disk (overwriting the
previous file contents). -/
def Manager.Save (c : Config) : Store :=
  some c

/-- `config.Manager.Clear`: loads, blanks the three token-related fields, and
saves. -/
def Manager.Clear (store : Store) : Store :=
  let c := Manager.Load store
  Manager.Save { c with accessToken := "", refreshToken := "", expiresAt := 0 }

/-- `config.Manager.IsLoggedIn`: access token present and not within one
minute of expiry (`time.Now().Add(time.Minute).After(ExpiresAt)` is the
strict comparison `now + 60 > expiresAt`). -/
def Manager.IsLoggedIn (store : Store) (now : Nat) : Bool :=
  let c := Manager.Load store
  if c.accessToken = "" then false
  else if c.expiresAt ≠ 0 ∧ now + 60 > c.expiresAt then false
  else true

/-- `config.Manager.GetAccessToken`: the stored access token, or an error when
absent or past expiry (no buffer here: `time.Now().After(ExpiresAt)`). -/
def Manager.GetAccessToken (store : Store) (now : Nat) : Except String String :=
  let c := Manager.Load store
  if c.accessToken = "" then .error "not logged in"
  else if c.expiresAt ≠ 0 ∧ now > c.expiresAt then .error "token expired"
  else .ok c.accessToken

/-- `config.Manager.SaveTokens`: stores the two tokens, and when `expiresIn`
is positive also a fresh expiry `now + expiresIn` (otherwise the previous
expiry is kept). -/
def Manager.SaveTokens (store : Store) (now : Nat)
    (accessToken refreshToken : String) (expiresIn : Int) : Store :=
  let c := Manager.Load store
  let c' := { c with accessToken := accessToken, refreshToken := refreshToken }
  Manager.Save (if expiresIn > 0 then { c' with expiresAt := now + expiresIn.toNat } else c')

/-- A loaded record never has an empty `api_url`. -/
theorem Manager.Load_apiURL_ne (store : Store) : (Manager.Load store).apiURL ≠ "" := by
  cases store with
  | none => simp [Manager.Load, DefaultAPIURL]
  | some c =>
      by_cases h : c.apiURL = "" <;> simp [Manager.Load, h, DefaultAPIURL]

/-- Loading a record whose `api_url` is non-empty is the identity. -/
theorem Manager.Load_some (c : Config) (h : c.apiURL ≠ "") :
    Manager.Load (some c) = c := by
  simp [Manager.Load, h]

/-- Claim C7: for every stored credential record, running `Clear` and then
`Load` yields a record whose access and refresh tokens are empty and whose
expiry is zero, while `client_id`, `client_secret` and `api_url` are unchanged
from the loaded record before the `Clear`. -/
theorem clear_then_load_blanks_tokens_keeps_client (store : Store) :
    (Manager.Load (Manager.Clear store)).accessToken = "" ∧
    (Manager.Load (Manager.Clear store)).refreshToken = "" ∧
    (Manager.Load (Manager.Clear store)).expiresAt = 0 ∧
    (Manager.Load (Manager.Clear store)).clientID = (Manager.Load store).clientID ∧
    (Manager.Load (Manager.Clear store)).clientSecret = (Manager.Load store).clientSecret ∧
    (Manager.Load (Manager.Clear store)).apiURL = (Manager.Load store).apiURL := by
  have h : Manager.Load (Manager.Clear store) =
      { Manager.Load store with accessToken := "", refreshToken := "", expiresAt := 0 } := by
    unfold Manager.Clear
    exact Manager.Load_some _ (Manager.Load_apiURL_ne store)
  rw [h]
  exact ⟨rfl, rfl, rfl, rfl, rfl, rfl⟩

/-- Claim C8: `Save` followed by `Load` returns the saved record field for
field, except that an empty `api_url` is replaced by the default API URL; and
loading when no file exists yields the empty record with the default API URL
pre-filled. -/
theorem save_load_round_trip (c : Config) :
    (Manager.Load (Manager.Save c)).accessToken = c.accessToken ∧
    (Manager.Load (Manager.Save c)).refreshToken = c.refreshToken ∧
    (Manager.Load (Manager.Save c)).expiresAt = c.expiresAt ∧
    (Manager.Load (Manager.Save c)).clientID = c.clientID ∧
    (Manager.Load (Manager.Save c)).clientSecret = c.clientSecret ∧
    (Manager.Load (Manager.Save c)).apiURL =
      (if c.apiURL = "" then DefaultAPIURL else c.apiURL) ∧
    Manager.Load none =
      { accessToken := "", refreshToken := "", expiresAt := 0,
        apiURL := DefaultAPIURL, clientID := "", clientSecret := "" } := by
  unfold Manager.Save Manager.Load
  by_cases h : c.apiURL = "" <;> simp [h]

/-- `auth.OAuthResult`: the result of an OAuth flow. -/
structure OAuthResult where
  accessToken : String
  refreshToken : String
  expiresIn : Int
  scope : String
deriving Repr, DecidableEq

/-- `service.authService.IsLoggedIn`: true when either token field of the
loaded record is non-empty; expiry is not consulted. -/
def authService.IsLoggedIn (store : Store) : Bool :=
  let cfg := Manager.Load store
  cfg.accessToken != "" || cfg.refreshToken != ""

/-- The outcome of one `EnsureAuthenticated` call: its returned error status,
the store after the call, and the refresh tokens passed to the flow engine's
`RefreshTokens` (one entry per network call made). -/
structure EnsureOutcome where
  result : Except String Unit
  store : Store
  refreshCalls : List String

/-- `service.authService.EnsureAuthenticated`: fails when no token is stored;
succeeds at once when the access token is still valid; with no refresh token
fails as an expired session; otherwise refreshes via the flow engine
(abstracted as `refresh`, mapping the refresh token sent to the network
outcome) and persists the result on success.  `now` is the call time. -/
def authService.EnsureAuthenticated (refresh : String → Except String OAuthResult)
    (store : Store) (now : Nat) : EnsureOutcome :=
  let cfg := Manager.Load store
  if cfg.accessToken = "" ∧ cfg.refreshToken = "" then
    { result := .error "not logged in. Please run 'kamui login' first",
      store := store, refreshCalls := [] }
  else if Manager.IsLoggedIn store now then
    { result := .ok (), store := store, refreshCalls := [] }
  else if cfg.refreshToken = "" then
    { result := .error "session expired. Please run 'kamui login' again",
      store := store, refreshCalls := [] }
  else
    match refresh cfg.refreshToken with
    | .error e =>
        { result := .error ("failed to refresh token: " ++ e ++ ". Please run 'kamui login' again"),
          store := store, refreshCalls := [cfg.refreshToken] }
    | .ok r =>
        { result := .ok (),
          store := Manager.SaveTokens store now r.accessToken r.refreshToken r.expiresIn,
          refreshCalls := [cfg.refreshToken] }

/-- The outcome of one `GetAccessToken` call, analogous to `EnsureOutcome`. -/
structure TokenOutcome where
  result : Except String String
  store : Store
  refreshCalls : List String

/-- `service.authService.GetAccessToken`: runs `EnsureAuthenticated`, then
reads the (possibly just-refreshed) token from the store. -/
def authService.GetAccessToken (refresh : String → Except String OAuthResult)
    (store : Store) (now : Nat) : TokenOutcome :=
  let e := authService.EnsureAuthenticated refresh store now
  match e.result with
  | .error msg => { result := .error msg, store := e.store, refreshCalls := e.refreshCalls }
  | .ok _ => { result := Manager.GetAccessToken e.store now, store := e.store,
               refreshCalls := e.refreshCalls }

/-- An expired (or buffer-expired) access token makes `Manager.IsLoggedIn`
false, whatever the access token is. -/
theorem Manager.IsLoggedIn_false_of_expired (store : Store) (now : Nat)
    (hexp : (Manager.Load store).expiresAt ≠ 0)
    (hwin : (Manager.Load store).expiresAt < now + 60) :
    Manager.IsLoggedIn store now = false := by
  unfold Manager.IsLoggedIn
  by_cases h : (Manager.Load store).accessToken = ""
  · simp [h]
  · rw [if_neg h, if_pos ⟨hexp, hwin⟩]

/-- An empty access token makes `Manager.IsLoggedIn` false. -/
theorem Manager.IsLoggedIn_false_of_no_access (store : Store) (now : Nat)
    (hat : (Manager.Load store).accessToken = "") :
    Manager.IsLoggedIn store now = false := by
  unfold Manager.IsLoggedIn
  rw [if_pos hat]

/-- On the refresh path (some token stored, not currently valid, refresh token
present, flow engine succeeds), `EnsureAuthenticated` calls refresh once with
the stored refresh token and persists its result. -/
theorem authService.EnsureAuthenticated_refresh_ok
    (refresh : String → Except String OAuthResult) (store : Store) (now : Nat) (r : OAuthResult)
    (hrt : (Manager.Load store).refreshToken ≠ "")
    (hnl : Manager.IsLoggedIn store now = false)
    (hok : refresh (Manager.Load store).refreshToken = .ok r) :
    authService.EnsureAuthenticated refresh store now =
      { result := .ok (),
        store := Manager.SaveTokens store now r.accessToken r.refreshToken r.expiresIn,
        refreshCalls := [(Manager.Load store).refreshToken] } := by
  unfold authService.EnsureAuthenticated
  rw [if_neg (fun h => hrt h.2), hnl,
      if_neg (by decide : ¬ ((false : Bool) = true)), if_neg hrt, hok]

/-- Loading never changes the stored access token. -/
theorem Manager.Load_some_accessToken (c : Config) :
    (Manager.Load (some c)).accessToken = c.accessToken := by
  by_cases h : c.apiURL = "" <;> simp [Manager.Load, h]

/-- Loading never changes the stored refresh token. -/
theorem Manager.Load_some_refreshToken (c : Config) :
    (Manager.Load (some c)).refreshToken = c.refreshToken := by
  by_cases h : c.apiURL = "" <;> simp [Manager.Load, h]

/-- Loading never changes the stored expiry. -/
theorem Manager.Load_some_expiresAt (c : Config) :
    (Manager.Load (some c)).expiresAt = c.expiresAt := by
  by_cases h : c.apiURL = "" <;> simp [Manager.Load, h]

/-- With a positive `expiresIn`, `SaveTokens` stores the tokens and the fresh
expiry `now + expiresIn`. -/
theorem Manager.SaveTokens_pos (store : Store) (now : Nat)
    (accessToken refreshToken : String) (expiresIn : Int) (hpos : expiresIn > 0) :
    Manager.SaveTokens store now accessToken refreshToken expiresIn =
      some { Manager.Load store with
             accessToken := accessToken, refreshToken := refreshToken,
             expiresAt := now + expiresIn.toNat } := by
  simp only [Manager.SaveTokens, Manager.Save]
  rw [if_pos hpos]

/-- `SaveTokens` always stores exactly the two tokens it is given. -/
theorem Manager.SaveTokens_fields (store : Store) (now : Nat)
    (accessToken refreshToken : String) (expiresIn : Int) :
    (Manager.Load (Manager.SaveTokens store now accessToken refreshToken expiresIn)).accessToken
      = accessToken ∧
    (Manager.Load (Manager.SaveTokens store now accessToken refreshToken expiresIn)).refreshToken
      = refreshToken := by
  simp only [Manager.SaveTokens, Manager.Save]
  split <;> exact ⟨Manager.Load_some_accessToken _, Manager.Load_some_refreshToken _⟩

/-- `Manager.GetAccessToken` succeeds on a record with a token that is absent
from expiry checking or not yet past expiry. -/
theorem Manager.GetAccessToken_ok (c : Config) (now : Nat)
    (hat : c.accessToken ≠ "") (hexp : c.expiresAt = 0 ∨ now ≤ c.expiresAt) :
    Manager.GetAccessToken (some c) now = .ok c.accessToken := by
  unfold Manager.GetAccessToken
  simp only [Manager.Load_some_accessToken, Manager.Load_some_expiresAt]
  rw [if_neg hat, if_neg (by rintro ⟨h1, h2⟩; rcases hexp with h | h <;> omega)]

/-- Claim C1: a stored record whose expiry is set and within 60 seconds of now
(or past) and whose refresh token is non-empty makes `GetAccessToken` (via
`EnsureAuthenticated`) invoke the flow engine's refresh exactly once with the
stored refresh token; on refresh success with positive `expires_in` it
persists the returned access and refresh tokens with expiry `now +
expires_in`, and returns the fresh access token to the caller. -/
theorem expired_with_refresh_token_refreshes_once
    (refresh : String → Except String OAuthResult) (store : Store) (now : Nat) (r : OAuthResult)
    (hexp : (Manager.Load store).expiresAt ≠ 0)
    (hwin : (Manager.Load store).expiresAt < now + 60)
    (hrt : (Manager.Load store).refreshToken ≠ "")
    (hok : refresh (Manager.Load store).refreshToken = .ok r)
    (hpos : r.expiresIn > 0)
    (hat : r.accessToken ≠ "") :
    (authService.GetAccessToken refresh store now).refreshCalls =
      [(Manager.Load store).refreshToken] ∧
    (authService.GetAccessToken refresh store now).store =
      some { Manager.Load store with
             accessToken := r.accessToken, refreshToken := r.refreshToken,
             expiresAt := now + r.expiresIn.toNat } ∧
    (authService.GetAccessToken refresh store now).result = .ok r.accessToken := by
  have hnl := Manager.IsLoggedIn_false_of_expired store now hexp hwin
  have hens := authService.EnsureAuthenticated_refresh_ok refresh store now r hrt hnl hok
  have hsave := Manager.SaveTokens_pos store now r.accessToken r.refreshToken r.expiresIn hpos
  unfold authService.GetAccessToken
  rw [hens, hsave]
  refine ⟨rfl, rfl, ?_⟩
  exact Manager.GetAccessToken_ok _ now hat (Or.inr (Nat.le_add_right now _))

/-- Claim C2: a stored record with a non-empty access token whose expiry is
unset or more than 60 seconds in the future makes `EnsureAuthenticated`
succeed immediately, with no refresh call and no store write, and
`GetAccessToken` returns the stored access token unchanged. -/
theorem valid_token_no_refresh_no_write
    (refresh : String → Except String OAuthResult) (store : Store) (now : Nat)
    (hat : (Manager.Load store).accessToken ≠ "")
    (hval : (Manager.Load store).expiresAt = 0 ∨ now + 60 < (Manager.Load store).expiresAt) :
    (authService.EnsureAuthenticated refresh store now).result = .ok () ∧
    (authService.EnsureAuthenticated refresh store now).store = store ∧
    (authService.EnsureAuthenticated refresh store now).refreshCalls = [] ∧
    (authService.GetAccessToken refresh store now).result =
      .ok (Manager.Load store).accessToken := by
  have hli : Manager.IsLoggedIn store now = true := by
    unfold Manager.IsLoggedIn
    rw [if_neg hat, if_neg (by rcases hval with h | h <;> rintro ⟨h1, h2⟩ <;> omega)]
  have hens : authService.EnsureAuthenticated refresh store now =
      { result := .ok (), store := store, refreshCalls := [] } := by
    unfold authService.EnsureAuthenticated
    rw [if_neg (fun h => hat h.1), hli, if_pos rfl]
  have htok : Manager.GetAccessToken store now = .ok (Manager.Load store).accessToken := by
    unfold Manager.GetAccessToken
    rw [if_neg hat, if_neg (by rcases hval with h | h <;> rintro ⟨h1, h2⟩ <;> omega)]
  unfold authService.GetAccessToken
  rw [hens]
  exact ⟨rfl, rfl, rfl, htok⟩

/-- Claim C3: a stored record with a present but expired access token and an
empty refresh token makes `EnsureAuthenticated` fail with the session-expired
error, which differs from the not-logged-in error; no refresh (network) call
is made and the store is unchanged. -/
theorem expired_without_refresh_token_session_expired
    (refresh : String → Except String OAuthResult) (store : Store) (now : Nat)
    (hat : (Manager.Load store).accessToken ≠ "")
    (hexp : (Manager.Load store).expiresAt ≠ 0)
    (hwin : (Manager.Load store).expiresAt < now + 60)
    (hrt : (Manager.Load store).refreshToken = "") :
    (authService.EnsureAuthenticated refresh store now).result =
      .error "session expired. Please run 'kamui login' again" ∧
    (authService.EnsureAuthenticated refresh store now).result ≠
      .error "not logged in. Please run 'kamui login' first" ∧
    (authService.EnsureAuthenticated refresh store now).store = store ∧
    (authService.EnsureAuthenticated refresh store now).refreshCalls = [] := by
  have hnl := Manager.IsLoggedIn_false_of_expired store now hexp hwin
  have hens : authService.EnsureAuthenticated refresh store now =
      { result := .error "session expired. Please run 'kamui login' again",
        store := store, refreshCalls := [] } := by
    unfold authService.EnsureAuthenticated
    rw [if_neg (fun h => hat h.1), hnl,
        if_neg (by decide : ¬ ((false : Bool) = true)), if_pos hrt]
  rw [hens]
  refine ⟨rfl, ?_, rfl, rfl⟩
  intro h
  exact absurd (Except.error.inj h) (by decide)

/-- Claim C4: with both token fields empty, `authService.IsLoggedIn` is false
and `EnsureAuthenticated` fails with the not-logged-in error; conversely
`authService.IsLoggedIn` is true whenever either token field is non-empty,
with no expiry validation (it does not depend on any clock). -/
theorem is_logged_in_optimistic_check (store : Store) :
    ((Manager.Load store).accessToken = "" ∧ (Manager.Load store).refreshToken = "" →
      authService.IsLoggedIn store = false ∧
      ∀ (refresh : String → Except String OAuthResult) (now : Nat),
        (authService.EnsureAuthenticated refresh store now).result =
          .error "not logged in. Please run 'kamui login' first") ∧
    ((Manager.Load store).accessToken ≠ "" ∨ (Manager.Load store).refreshToken ≠ "" →
      authService.IsLoggedIn store = true) := by
  constructor
  · rintro ⟨h1, h2⟩
    constructor
    · unfold authService.IsLoggedIn
      simp [h1, h2]
    · intro refresh now
      unfold authService.EnsureAuthenticated
      rw [if_pos ⟨h1, h2⟩]
  · intro h
    unfold authService.IsLoggedIn
    rcases h with h | h <;> simp [h]

/-- Claim C10: a stored record with an empty access token but a non-empty
refresh token (a state outside the spec's LoggedOut/Valid/Expired
classification) does not yield the not-logged-in error: `EnsureAuthenticated`
takes the refresh path, invoking refresh once with the stored refresh token,
and on refresh success persists the returned tokens and succeeds. -/
theorem empty_access_with_refresh_token_refreshes
    (refresh : String → Except String OAuthResult) (store : Store) (now : Nat) (r : OAuthResult)
    (hat : (Manager.Load store).accessToken = "")
    (hrt : (Manager.Load store).refreshToken ≠ "")
    (hok : refresh (Manager.Load store).refreshToken = .ok r) :
    (authService.EnsureAuthenticated refresh store now).result ≠
      .error "not logged in. Please run 'kamui login' first" ∧
    (authService.EnsureAuthenticated refresh store now).refreshCalls =
      [(Manager.Load store).refreshToken] ∧
    (authService.EnsureAuthenticated refresh store now).result = .ok () ∧
    (Manager.Load (authService.EnsureAuthenticated refresh store now).store).accessToken =
      r.accessToken ∧
    (Manager.Load (authService.EnsureAuthenticated refresh store now).store).refreshToken =
      r.refreshToken := by
  have hnl := Manager.IsLoggedIn_false_of_no_access store now hat
  have hens := authService.EnsureAuthenticated_refresh_ok refresh store now r hrt hnl hok
  rw [hens]
  refine ⟨fun h => Except.noConfusion h, rfl, rfl, ?_, ?_⟩
  · exact (Manager.SaveTokens_fields store now r.accessToken r.refreshToken r.expiresIn).1
  · exact (Manager.SaveTokens_fields store now r.accessToken r.refreshToken r.expiresIn).2



/-- `auth.ClientCredentials`: OAuth client credentials. -/
structure ClientCredentials where
  clientID : String
  clientSecret : String
deriving Repr, DecidableEq

/-- `auth.TokenResponse`: the decoded body of a token-endpoint success. -/
structure TokenResponse where
  accessToken : String
  tokenType : String
  expiresIn : Int
  refreshToken : String
  scope : String
deriving Repr, DecidableEq

/-- An HTTP response from the OAuth endpoints, abstracted to what the code
could inspect when reporting an error: the status code, and the `message`
field the body would yield if parsed as a message object (`none` when the
body carries no such field). -/
structure HTTPResponse where
  statusCode : Nat
  messageField : Option String
deriving Repr, DecidableEq

/-- `auth.OAuthFlow.RegisterClient`, as a function of the network response:
any status other than 201 or 200 is an error carrying only the status code;
otherwise the decoded credentials are returned. -/
def OAuthFlow.RegisterClient (resp : HTTPResponse) (body : ClientCredentials) :
    Except String ClientCredentials :=
  if resp.statusCode ≠ 201 ∧ resp.statusCode ≠ 200 then
    .error ("client registration failed with status " ++ toString resp.statusCode)
  else
    .ok body

/-- `auth.OAuthFlow.RefreshTokens`, as a function of the network response:
any status other than 200 is an error carrying only the status code. -/
def OAuthFlow.RefreshTokens (resp : HTTPResponse) (body : TokenResponse) :
    Except String OAuthResult :=
  if resp.statusCode ≠ 200 then
    .error ("token refresh failed with status " ++ toString resp.statusCode)
  else
    .ok { accessToken := body.accessToken, refreshToken := body.refreshToken,
          expiresIn := body.expiresIn, scope := body.scope }

/-- `auth.OAuthFlow.exchangeCodeForTokens`, as a function of the network
response: any status other than 200 is an error carrying only the status
code. -/
def OAuthFlow.exchangeCodeForTokens (resp : HTTPResponse) (body : TokenResponse) :
    Except String OAuthResult :=
  if resp.statusCode ≠ 200 then
    .error ("token exchange failed with status " ++ toString resp.statusCode)
  else
    .ok { accessToken := body.accessToken, refreshToken := body.refreshToken,
          expiresIn := body.expiresIn, scope := body.scope }

/-- Modelled from the spec: the error-surfacing rule the spec states for HTTP
error bodies of the flow engine (parse the body as a message object and
surface the message verbatim when present, else use a generic status
message), written from the spec's words for comparison with the code. -/
def specHTTPErrorText (operation : String) (resp : HTTPResponse) : String :=
  match resp.messageField with
  | some m => m
  | none => operation ++ " failed with status " ++ toString resp.statusCode

/-- Outcome of the `/callback` route handler. -/
inductive CallbackOutcome where
  | stateMismatch
  | oauthError (code description : String)
  | noCode
  | codeDelivered (code : String)
deriving Repr, DecidableEq

/-- The `/callback` handler installed by `auth.OAuthFlow.startCallbackServer`,
as a function of the request's query parameters (an absent parameter arrives
as the empty string, as with Go's `URL.Query().Get`): a state mismatch is
rejected first, then a provider-reported error, then a missing code;
otherwise the code is delivered. -/
def OAuthFlow.callbackHandler (expectedState : String)
    (state errParam errDescription codeParam : String) : CallbackOutcome :=
  if state ≠ expectedState then .stateMismatch
  else if errParam ≠ "" then .oauthError errParam errDescription
  else if codeParam = "" then .noCode
  else .codeDelivered codeParam

/-- Observable steps of one `Login` run, in order. -/
inductive LoginEvent where
  | probeBind (port : Nat)
  | probeClose (port : Nat)
  | registerCall
  | serverStart (port : Nat)
  | browserOpen
  | tokenExchangeCall
deriving Repr, DecidableEq

/-- `auth.DefaultCallbackPort`. -/
def DefaultCallbackPort : Nat := 9876

/-- The port-probing loop of `auth.OAuthFlow.findAvailablePort`: try `n`
consecutive ports from `p`; a successful bind is closed immediately and the
port returned. -/
def findPortAux (free : Nat → Bool) (p : Nat) : Nat → Option Nat × List LoginEvent
  | 0 => (none, [])
  | n + 1 =>
    if free p then (some p, [.probeBind p, .probeClose p])
    else findPortAux free (p + 1) n

/-- `auth.OAuthFlow.findAvailablePort`: ten candidate ports starting at the
default. -/
def OAuthFlow.findAvailablePort (free : Nat → Bool) : Option Nat × List LoginEvent :=
  findPortAux free DefaultCallbackPort 10

/-- What `Login`'s blocking wait observes: a delivered code, a callback
error, the caller's cancellation, or the 5-minute timeout. -/
inductive WaitOutcome where
  | codeArrived (code : String)
  | callbackError (message : String)
  | cancelled
  | timedOut
deriving Repr, DecidableEq

/-- The environment of one `Login` run: which local ports are free, the
registration endpoint's response, the callback wait outcome, and the token
endpoint's response to the code exchange. -/
structure LoginEnv where
  freePort : Nat → Bool
  regResponse : HTTPResponse
  regBody : ClientCredentials
  wait : WaitOutcome
  exchangeResponse : HTTPResponse
  exchangeBody : TokenResponse

/-- The tail of `Login` after client credentials are settled: start the
callback listener, open the browser, block on the wait, and exchange the code
on delivery. -/
def OAuthFlow.loginAfterRegistration (env : LoginEnv) (port : Nat)
    (tr : List LoginEvent) : Except String OAuthResult × List LoginEvent :=
  let tr' := tr ++ [.serverStart port, .browserOpen]
  match env.wait with
  | .codeArrived _ =>
      match OAuthFlow.exchangeCodeForTokens env.exchangeResponse env.exchangeBody with
      | .error e => (.error e, tr' ++ [.tokenExchangeCall])
      | .ok r => (.ok r, tr' ++ [.tokenExchangeCall])
  | .callbackError e => (.error e, tr')
  | .cancelled => (.error "context canceled", tr')
  | .timedOut => (.error "authentication timed out", tr')

/-- `auth.OAuthFlow.Login`: probe for a free port (closing the probe listener
at once), register a client when none is set (aborting on registration
failure), then start the callback listener, open the browser and wait. -/
def OAuthFlow.Login (env : LoginEnv) (clientID : String) :
    Except String OAuthResult × List LoginEvent :=
  match OAuthFlow.findAvailablePort env.freePort with
  | (none, tr) => (.error "failed to find available port: no available port found", tr)
  | (some port, tr) =>
    if clientID = "" then
      match OAuthFlow.RegisterClient env.regResponse env.regBody with
      | .error e => (.error ("failed to register client: " ++ e), tr ++ [.registerCall])
      | .ok _ => OAuthFlow.loginAfterRegistration env port (tr ++ [.registerCall])
    else
      OAuthFlow.loginAfterRegistration env port tr

/-- When the probe loop finds a port, its trace is exactly one bind
immediately followed by one close of that port. -/
theorem findPortAux_some (free : Nat → Bool) (p n q : Nat) (tr : List LoginEvent)
    (h : findPortAux free p n = (some q, tr)) :
    tr = [.probeBind q, .probeClose q] := by
  induction n generalizing p with
  | zero => simp [findPortAux] at h
  | succ n ih =>
      unfold findPortAux at h
      by_cases hf : free p
      · rw [if_pos hf] at h
        injection h with h1 h2
        injection h1 with h1
        subst h1
        exact h2.symm
      · rw [if_neg hf] at h
        exact ih _ h

/-- Claim C5: the callback handler signals a state mismatch and delivers no
code whenever the state parameter differs from the expected nonce, whatever
the code and error parameters are; and a code is delivered only when the
state matches, no error parameter is present, and the code parameter is
non-empty (the delivered code being that parameter). -/
theorem callback_state_mismatch_rejects
    (expectedState state errParam errDescription codeParam : String) :
    (state ≠ expectedState →
      OAuthFlow.callbackHandler expectedState state errParam errDescription codeParam =
        .stateMismatch) ∧
    (∀ c, OAuthFlow.callbackHandler expectedState state errParam errDescription codeParam =
        .codeDelivered c →
      state = expectedState ∧ errParam = "" ∧ codeParam ≠ "" ∧ c = codeParam) := by
  constructor
  · intro h
    unfold OAuthFlow.callbackHandler
    rw [if_pos h]
  · intro c h
    unfold OAuthFlow.callbackHandler at h
    by_cases h1 : state ≠ expectedState
    · rw [if_pos h1] at h
      exact CallbackOutcome.noConfusion h
    · rw [if_neg h1] at h
      by_cases h2 : errParam ≠ ""
      · rw [if_pos h2] at h
        exact CallbackOutcome.noConfusion h
      · rw [if_neg h2] at h
        by_cases h3 : codeParam = ""
        · rw [if_pos h3] at h
          exact CallbackOutcome.noConfusion h
        · rw [if_neg h3] at h
          injection h with h4
          exact ⟨not_not.mp h1, not_not.mp h2, h3, h4.symm⟩

/-- Claim C6 counterexample: a registration response with status 422 and a
body whose parsed `message` field is "boom" yields the generic status error,
and "boom" does not occur in the returned error text at all. -/
theorem flow_error_ignores_message_field :
    OAuthFlow.RegisterClient ⟨422, some "boom"⟩ ⟨"id", "secret"⟩ =
      .error "client registration failed with status 422" ∧
    ¬ ("boom".toList <:+: "client registration failed with status 422".toList) := by
  refine ⟨rfl, by decide⟩

/-- Claim C6 (amended): every non-success HTTP response to registration,
token refresh, or token exchange yields the generic "failed with status N"
error, whatever `message` field the response body may carry; the body is
never consulted for the error text. -/
theorem flow_http_errors_are_generic
    (resp : HTTPResponse) (creds : ClientCredentials) (tok : TokenResponse) :
    (resp.statusCode ≠ 200 ∧ resp.statusCode ≠ 201 →
      OAuthFlow.RegisterClient resp creds =
        .error ("client registration failed with status " ++ toString resp.statusCode)) ∧
    (resp.statusCode ≠ 200 →
      OAuthFlow.RefreshTokens resp tok =
        .error ("token refresh failed with status " ++ toString resp.statusCode) ∧
      OAuthFlow.exchangeCodeForTokens resp tok =
        .error ("token exchange failed with status " ++ toString resp.statusCode)) := by
  refine ⟨fun h => ?_, fun h => ⟨?_, ?_⟩⟩
  · unfold OAuthFlow.RegisterClient
    rw [if_pos ⟨h.2, h.1⟩]
  · unfold OAuthFlow.RefreshTokens
    rw [if_pos h]
  · unfold OAuthFlow.exchangeCodeForTokens
    rw [if_pos h]

/-- Claim C9: when no client credentials are set and the registration
response is a non-success status, `Login` returns the registration error
having performed only the port probe (bound and immediately closed) and the
registration call: the callback listener is never started, the browser is
never opened, and no token exchange happens. -/
theorem registration_failure_aborts_login
    (env : LoginEnv) (p : Nat)
    (hport : (OAuthFlow.findAvailablePort env.freePort).1 = some p)
    (hreg : env.regResponse.statusCode ≠ 200 ∧ env.regResponse.statusCode ≠ 201) :
    OAuthFlow.Login env "" =
      (.error ("failed to register client: " ++
          ("client registration failed with status " ++ toString env.regResponse.statusCode)),
       [.probeBind p, .probeClose p, .registerCall]) ∧
    (∀ q, LoginEvent.serverStart q ∉ (OAuthFlow.Login env "").2) ∧
    LoginEvent.browserOpen ∉ (OAuthFlow.Login env "").2 ∧
    LoginEvent.tokenExchangeCall ∉ (OAuthFlow.Login env "").2 := by
  have hx : OAuthFlow.findAvailablePort env.freePort =
      (some p, (OAuthFlow.findAvailablePort env.freePort).2) := by
    rw [← hport]
  have htr := findPortAux_some env.freePort DefaultCallbackPort 10 p
    ((OAuthFlow.findAvailablePort env.freePort).2) hx
  have hfa : OAuthFlow.findAvailablePort env.freePort =
      (some p, [.probeBind p, .probeClose p]) := hx.trans (congrArg _ htr)
  have hrc : OAuthFlow.RegisterClient env.regResponse env.regBody =
      .error ("client registration failed with status " ++ toString env.regResponse.statusCode) := by
    unfold OAuthFlow.RegisterClient
    rw [if_pos ⟨hreg.2, hreg.1⟩]
  have hL : OAuthFlow.Login env "" =
      (.error ("failed to register client: " ++
          ("client registration failed with status " ++ toString env.regResponse.statusCode)),
       [.probeBind p, .probeClose p, .registerCall]) := by
    unfold OAuthFlow.Login
    rw [hfa, hrc]
    rfl
  refine ⟨hL, ?_, ?_, ?_⟩ <;> rw [hL] <;> simp

/-- Witness for claim C1: the spec's end-to-end refresh scenario, with the
token endpoint returning access token "A", refresh token "B" and
`expires_in = 3600` at time 100 for stored refresh token "R". -/
theorem expired_with_refresh_token_refreshes_once_witness :
    (authService.GetAccessToken
        (fun t => if t = "R" then .ok ⟨"A", "B", 3600, "full"⟩ else .error "bad")
        (some ⟨"old", "R", 50, "u", "cid", "sec"⟩) 100).refreshCalls = ["R"] ∧
    (authService.GetAccessToken
        (fun t => if t = "R" then .ok ⟨"A", "B", 3600, "full"⟩ else .error "bad")
        (some ⟨"old", "R", 50, "u", "cid", "sec"⟩) 100).store =
      some ⟨"A", "B", 3700, "u", "cid", "sec"⟩ ∧
    (authService.GetAccessToken
        (fun t => if t = "R" then .ok ⟨"A", "B", 3600, "full"⟩ else .error "bad")
        (some ⟨"old", "R", 50, "u", "cid", "sec"⟩) 100).result = .ok "A" :=
  expired_with_refresh_token_refreshes_once
    (fun t => if t = "R" then .ok ⟨"A", "B", 3600, "full"⟩ else .error "bad")
    (some ⟨"old", "R", 50, "u", "cid", "sec"⟩) 100 ⟨"A", "B", 3600, "full"⟩
    (by decide) (by decide) (by decide) rfl (by decide) (by decide)

/-- Witness for claim C2: a stored record with token "tok" and no expiry is
returned unchanged, with no refresh call. -/
theorem valid_token_no_refresh_no_write_witness :
    (authService.EnsureAuthenticated (fun _ => .error "no")
        (some ⟨"tok", "", 0, "u", "", ""⟩) 100).result = .ok () ∧
    (authService.EnsureAuthenticated (fun _ => .error "no")
        (some ⟨"tok", "", 0, "u", "", ""⟩) 100).store =
      some ⟨"tok", "", 0, "u", "", ""⟩ ∧
    (authService.EnsureAuthenticated (fun _ => .error "no")
        (some ⟨"tok", "", 0, "u", "", ""⟩) 100).refreshCalls = [] ∧
    (authService.GetAccessToken (fun _ => .error "no")
        (some ⟨"tok", "", 0, "u", "", ""⟩) 100).result = .ok "tok" :=
  valid_token_no_refresh_no_write (fun _ => .error "no")
    (some ⟨"tok", "", 0, "u", "", ""⟩) 100 (by decide) (by decide)

/-- Witness for claim C3: a record with an access token expired at time 100
and no refresh token fails as an expired session, untouched. -/
theorem expired_without_refresh_token_session_expired_witness :
    (authService.EnsureAuthenticated (fun _ => .error "no")
        (some ⟨"tok", "", 50, "u", "", ""⟩) 100).result =
      .error "session expired. Please run 'kamui login' again" ∧
    (authService.EnsureAuthenticated (fun _ => .error "no")
        (some ⟨"tok", "", 50, "u", "", ""⟩) 100).store =
      some ⟨"tok", "", 50, "u", "", ""⟩ ∧
    (authService.EnsureAuthenticated (fun _ => .error "no")
        (some ⟨"tok", "", 50, "u", "", ""⟩) 100).refreshCalls = [] :=
  ⟨(expired_without_refresh_token_session_expired (fun _ => .error "no")
      (some ⟨"tok", "", 50, "u", "", ""⟩) 100 (by decide) (by decide) (by decide) (by decide)).1,
   (expired_without_refresh_token_session_expired (fun _ => .error "no")
      (some ⟨"tok", "", 50, "u", "", ""⟩) 100 (by decide) (by decide) (by decide) (by decide)).2.2⟩

/-- Witness for claim C4: a record with both tokens empty is not logged in
and yields the not-logged-in error; a record with just an access token is
logged in. -/
theorem is_logged_in_optimistic_check_witness :
    authService.IsLoggedIn (some ⟨"", "", 0, "u", "", ""⟩) = false ∧
    (authService.EnsureAuthenticated (fun _ => .error "no")
        (some ⟨"", "", 0, "u", "", ""⟩) 7).result =
      .error "not logged in. Please run 'kamui login' first" ∧
    authService.IsLoggedIn (some ⟨"x", "", 0, "u", "", ""⟩) = true :=
  ⟨((is_logged_in_optimistic_check (some ⟨"", "", 0, "u", "", ""⟩)).1 (by decide)).1,
   ((is_logged_in_optimistic_check (some ⟨"", "", 0, "u", "", ""⟩)).1 (by decide)).2
     (fun _ => .error "no") 7,
   (is_logged_in_optimistic_check (some ⟨"x", "", 0, "u", "", ""⟩)).2 (Or.inl (by decide))⟩

/-- Witness for claim C5: with nonce "abc123", a callback carrying
`state=wrong` and a valid-looking code is rejected as a state mismatch. -/
theorem callback_state_mismatch_rejects_witness :
    OAuthFlow.callbackHandler "abc123" "wrong" "" "" "goodcode" = .stateMismatch :=
  (callback_state_mismatch_rejects "abc123" "wrong" "" "" "goodcode").1 (by decide)

/-- Witness for the amended claim C6: a 503 response whose body carries
message "m" still yields the three generic status errors. -/
theorem flow_http_errors_are_generic_witness :
    OAuthFlow.RegisterClient ⟨503, some "m"⟩ ⟨"i", "s"⟩ =
      .error "client registration failed with status 503" ∧
    OAuthFlow.RefreshTokens ⟨503, some "m"⟩ ⟨"a", "bearer", 1, "r", "sc"⟩ =
      .error "token refresh failed with status 503" ∧
    OAuthFlow.exchangeCodeForTokens ⟨503, some "m"⟩ ⟨"a", "bearer", 1, "r", "sc"⟩ =
      .error "token exchange failed with status 503" :=
  ⟨(flow_http_errors_are_generic ⟨503, some "m"⟩ ⟨"i", "s"⟩ ⟨"a", "bearer", 1, "r", "sc"⟩).1
     (by decide),
   ((flow_http_errors_are_generic ⟨503, some "m"⟩ ⟨"i", "s"⟩ ⟨"a", "bearer", 1, "r", "sc"⟩).2
     (by decide)).1,
   ((flow_http_errors_are_generic ⟨503, some "m"⟩ ⟨"i", "s"⟩ ⟨"a", "bearer", 1, "r", "sc"⟩).2
     (by decide)).2⟩

/-- Witness for claim C9: all ports free, registration answering 422: the
run is the probe (bound, closed), the registration call, and the error. -/
theorem registration_failure_aborts_login_witness :
    OAuthFlow.Login
        ⟨fun _ => true, ⟨422, some "Unprocessable"⟩, ⟨"i", "s"⟩, .timedOut,
         ⟨200, none⟩, ⟨"a", "bearer", 1, "r", "sc"⟩⟩ "" =
      (.error "failed to register client: client registration failed with status 422",
       [.probeBind 9876, .probeClose 9876, .registerCall]) :=
  (registration_failure_aborts_login
      ⟨fun _ => true, ⟨422, some "Unprocessable"⟩, ⟨"i", "s"⟩, .timedOut,
       ⟨200, none⟩, ⟨"a", "bearer", 1, "r", "sc"⟩⟩ 9876 (by decide) (by decide)).1

/-- Witness for claim C10: empty access token with refresh token "R": one
refresh call, success, and the returned tokens persisted. -/
theorem empty_access_with_refresh_token_refreshes_witness :
    (authService.EnsureAuthenticated
        (fun t => if t = "R" then .ok ⟨"A", "B", 3600, "full"⟩ else .error "x")
        (some ⟨"", "R", 0, "u", "", ""⟩) 5).refreshCalls = ["R"] ∧
    (authService.EnsureAuthenticated
        (fun t => if t = "R" then .ok ⟨"A", "B", 3600, "full"⟩ else .error "x")
        (some ⟨"", "R", 0, "u", "", ""⟩) 5).result = .ok () ∧
    (Manager.Load (authService.EnsureAuthenticated
        (fun t => if t = "R" then .ok ⟨"A", "B", 3600, "full"⟩ else .error "x")
        (some ⟨"", "R", 0, "u", "", ""⟩) 5).store).accessToken = "A" ∧
    (Manager.Load (authService.EnsureAuthenticated
        (fun t => if t = "R" then .ok ⟨"A", "B", 3600, "full"⟩ else .error "x")
        (some ⟨"", "R", 0, "u", "", ""⟩) 5).store).refreshToken = "B" :=
  (empty_access_with_refresh_token_refreshes
      (fun t => if t = "R" then .ok ⟨"A", "B", 3600, "full"⟩ else .error "x")
      (some ⟨"", "R", 0, "u", "", ""⟩) 5 ⟨"A", "B", 3600, "full"⟩
      (by decide) (by decide) rfl).2
